import Mathlib

/-!
Verification development for the Logic-Force-Theory framework core
(src/core/logic_force.py and src/core/quantum_processor.py).

Numeric conventions of the embedding: Python/numpy floating-point scalars are
modelled by exact reals; complex vectors by lists over the complex numbers.
Where numpy would produce NaN by dividing a zero vector by its zero norm, the
exact model divides by zero in the Mathlib convention (x / 0 = 0), so such a
"state" shows up as the all-zero vector; either way the unit-norm invariant
fails there.  Python exceptions are modelled by the error branch of an
Except value.  Text is modelled on the character-list level; only ASCII
lower-casing matters for the inputs exercised here, matching the repository's
rule patterns.
-/

namespace LFT

/-- Dataclass LogicForce (logic_force.py): magnitude, coherence, direction,
uncertainty. -/
structure LogicForce where
  magnitude : ℝ
  coherence : ℝ
  direction : ℝ
  uncertainty : ℝ

/-- Dataclass LogicRule (logic_force.py): patterns, weight, optional context. -/
structure LogicRule where
  patterns : List String
  weight : ℝ
  context : Option String

/-! ### Tokenisation, pattern matching (logic_force.py lines 43-83) -/

/-- Whether the first list is an initial segment of the second
(models Python str.startswith on the already-tokenised word). -/
def headMatch : List Char → List Char → Bool
  | [], _ => true
  | _ :: _, [] => false
  | p :: ps, w :: ws => p == w && headMatch ps ws

/-- Split a character list at whitespace runs, discarding empty pieces
(models Python str.split() with no argument). -/
def splitWs (cs : List Char) : List (List Char) :=
  (cs.foldr (fun c acc =>
    if c.isWhitespace then [] :: acc
    else match acc with
      | [] => [[c]]
      | w :: ws => (c :: w) :: ws) []).filter (fun w => w ≠ [])

/-- words = input_text.lower().split() (logic_force.py line 47). -/
def tokenize (s : String) : List (List Char) :=
  splitWs (s.data.map Char.toLower)

/-- _pattern_matches (logic_force.py lines 79-83): trailing-star wildcard
accepts any word starting with the star-free part, otherwise exact equality. -/
def patternMatches (pattern : String) (word : List Char) : Bool :=
  if pattern.data.getLast? == some '*' then headMatch pattern.data.dropLast word
  else pattern.data == word

/-- _find_pattern_matches (logic_force.py lines 67-77): per rule, the patterns
matched by some word; rules with no matched pattern are omitted.  The rule
mapping is modelled as an insertion-ordered association list. -/
def findPatternMatches (rules : List (String × LogicRule)) (words : List (List Char)) :
    List (String × List String) :=
  (rules.map (fun r =>
    (r.1, r.2.patterns.filter (fun p => words.any (fun w => patternMatches p w))))).filter
    (fun m => m.2 ≠ [])

/-- self._rules[rule_id] on the association-list model of the rule dict. -/
def lookupRule (rules : List (String × LogicRule)) (rid : String) : LogicRule :=
  ((rules.find? (fun r => r.1 == rid)).map Prod.snd).getD ⟨[], 0, none⟩

/-! ### Force component calculations (logic_force.py lines 85-154) -/

/-- _calculate_magnitude (lines 85-89). -/
noncomputable def calculateMagnitude (rules : List (String × LogicRule))
    (mts : List (String × List String)) : ℝ :=
  min 1 ((mts.map (fun m =>
    (lookupRule rules m.1).weight * (m.2.length : ℝ))).sum / (rules.length : ℝ))

/-- _calculate_coherence (lines 91-111); scipy.stats.entropy is the natural-log
Shannon entropy of the (already normalised) probability list. -/
noncomputable def calculateCoherence (mts : List (String × List String)) : ℝ :=
  if mts = [] then 1
  else
    let patternCounts := mts.map (fun m => m.2.length)
    if patternCounts.length = 1 then 1
    else
      let totalPatterns := patternCounts.sum
      let probabilities := patternCounts.map (fun c => (c : ℝ) / (totalPatterns : ℝ))
      let maxEntropy := Real.log (patternCounts.length : ℝ)
      if maxEntropy = 0 then 1
      else 1 - (-(probabilities.map (fun p => p * Real.log p)).sum) / maxEntropy

/-- _calculate_direction (lines 113-131); the Python falsy test on the context
string treats both None and the empty string as "no context". -/
noncomputable def calculateDirection (rules : List (String × LogicRule))
    (mts : List (String × List String)) (context : Option String) : ℝ :=
  match context with
  | none => 0
  | some ctx =>
    if ctx = "" then 0
    else
      let aligned := (mts.filter
        (fun m => (lookupRule rules m.1).context == some ctx)).length
      if aligned = 0 then Real.pi
      else 2 * Real.pi * ((aligned : ℝ) / (mts.length : ℝ))

/-- _calculate_uncertainty (lines 133-154); the matched-word set is modelled as
a deduplicated list, whose size is all the code uses. -/
noncomputable def calculateUncertainty (mts : List (String × List String))
    (words : List (List Char)) : ℝ :=
  if words = [] then 1
  else
    let matchedWords := (mts.flatMap (fun m => m.2.flatMap (fun p =>
      if p.data.getLast? == some '*' then
        words.filter (fun w => headMatch p.data.dropLast w)
      else [p.data]))).dedup
    1 - ((matchedWords.length : ℝ) / (words.length : ℝ))

/-- calculate_force (logic_force.py lines 43-65), vector mode. -/
noncomputable def calculateForce (rules : List (String × LogicRule)) (inputText : String)
    (context : Option String) : LogicForce :=
  let words := tokenize inputText
  let mts := findPatternMatches rules words
  if mts = [] then ⟨0, 1, 0, 1⟩
  else
    ⟨calculateMagnitude rules mts,
     calculateCoherence mts,
     calculateDirection rules mts context,
     calculateUncertainty mts words⟩

/-! ### State encoding (logic_force.py lines 156-205) -/

/-- Sum of squared amplitude magnitudes of a state vector. -/
noncomputable def normSq (v : List ℂ) : ℝ :=
  (v.map (fun z => Complex.abs z ^ 2)).sum

/-- state /= np.linalg.norm(state): divide every amplitude by the Euclidean
norm of the vector. -/
noncomputable def normalize (v : List ℂ) : List ℂ :=
  v.map (fun z => z / ((Real.sqrt (normSq v) : ℝ) : ℂ))

/-- magnitude_qubits = max(1, int(-np.log2(force.uncertainty)))
(logic_force.py line 162).  Python int() truncates toward zero; composed with
max 1 this agrees with the floor-then-toNat form used here for every
positive uncertainty. -/
noncomputable def magnitudeQubits (u : ℝ) : ℕ :=
  max 1 (⌊-Real.logb 2 u⌋).toNat

/-- The loop body of to_quantum_state (lines 164-177) before normalisation:
state[i] = sqrt(magnitude*coherence) * exp(1j * phase_i). -/
noncomputable def rawStateVec (f : LogicForce) : List ℂ :=
  (List.range (2 ^ magnitudeQubits f.uncertainty)).map (fun (i : ℕ) =>
    ((Real.sqrt (f.magnitude * f.coherence) : ℝ) : ℂ) *
      Complex.exp (((if 1 < 2 ^ magnitudeQubits f.uncertainty then
        f.direction * (i : ℝ) / ((2 ^ magnitudeQubits f.uncertainty : ℕ) - 1 : ℝ)
      else f.direction) : ℝ) * Complex.I))

/-- The state vector to_quantum_state returns (lines 179-182). -/
noncomputable def toQuantumStateVec (f : LogicForce) : List ℂ :=
  normalize (rawStateVec f)

/-- to_quantum_state (lines 156-182) including its failure modes: RuntimeError
when quantum processing is disabled, and the int() conversion error raised when
np.log2(uncertainty) is infinite (uncertainty = 0) or NaN (uncertainty < 0). -/
noncomputable def toQuantumState (quantumEnabled : Bool) (f : LogicForce) :
    Except String (List ℂ) :=
  if quantumEnabled = false then .error "RuntimeError: Quantum processing is disabled"
  else if f.uncertainty = 0 then
    .error "OverflowError: cannot convert float infinity to integer"
  else if f.uncertainty < 0 then
    .error "ValueError: cannot convert float NaN to integer"
  else .ok (toQuantumStateVec f)

/-- result_state = alpha * force_state + (1 - alpha) * target_state
(logic_force.py line 200), elementwise on equal-length vectors. -/
noncomputable def blendVec (f : LogicForce) (target : List ℂ) : List ℂ :=
  List.zipWith (fun a b => (f.magnitude : ℂ) * a + (1 - (f.magnitude : ℂ)) * b)
    (toQuantumStateVec f) target

/-- apply_force (logic_force.py lines 184-205). -/
noncomputable def applyForce (quantumEnabled : Bool) (target : List ℂ) (f : LogicForce) :
    Except String (List ℂ) :=
  if quantumEnabled = false then .error "RuntimeError: Quantum processing is disabled"
  else match toQuantumState quantumEnabled f with
    | .error e => .error e
    | .ok forceState =>
      if forceState.length ≠ target.length then
        .error "ValueError: Incompatible quantum states"
      else .ok (normalize (blendVec f target))

/-! ### Scalar calculation mode -/

/-- Number of (token, category) pairs where some pattern of the category
mts the token. -/
def matchingPairCount (rules : List (String × List String))
    (words : List (List Char)) : ℕ :=
  (words.map (fun w =>
    (rules.filter (fun r => r.2.any (fun p => patternMatches p w))).length)).sum

/-- Modelled from the spec: the scalar-mode calculate_force(text, rules) of the
LogicForceProcessor referenced by tests/test_logic_force.py and the
ai_interface/QuantumDecisionSystem callers is not present in the repository
sources; following spec section 4.1, scalar mode: force = min(1.0, sum over
matching (token, category) pairs of 1/num_categories), 0.0 on no match, 0.0 on
empty input. -/
noncomputable def scalarCalculateForce (rules : List (String × List String))
    (text : String) : ℝ :=
  min 1 ((matchingPairCount rules (tokenize text) : ℝ) / (rules.length : ℝ))

/-! ### Quantum processor state (quantum_processor.py) -/

/-- _initialize_state (quantum_processor.py lines 27-32): np.zeros(2**n) with
state[0] = 1.0. -/
def initializeState (numQubits : ℕ) : List ℂ :=
  (List.replicate (2 ^ numQubits) (0 : ℂ)).set 0 1

/-- probs = np.abs(self.state) ** 2 (quantum_processor.py line 154). -/
noncomputable def stateProbs (state : List ℂ) : List ℝ :=
  state.map (fun z => Complex.abs z ^ 2)

/-- The per-action raw scores of _calculate_action_probabilities (lines
157-163): weight * sum(probs[i*chunk : (i+1)*chunk]) with
chunk = len(probs) // len(actions), actions in insertion order. -/
noncomputable def rawActionScores (state : List ℂ) (actions : List (String × ℝ)) :
    List (String × ℝ) :=
  actions.enum.map (fun p =>
    (p.2.1, p.2.2 *
      (((stateProbs state).drop
          (p.1 * ((stateProbs state).length / actions.length))).take
        ((stateProbs state).length / actions.length)).sum))

/-- The raw scores as claim C3 words them: the last chunk absorbs the
remainder indices when the dimension is not divisible by the category count.
Written for refinement comparison against rawActionScores. -/
noncomputable def claimChunkScores (state : List ℂ) (actions : List (String × ℝ)) :
    List (String × ℝ) :=
  actions.enum.map (fun p =>
    (p.2.1, p.2.2 *
      (((stateProbs state).drop
          (p.1 * ((stateProbs state).length / actions.length))).take
        (if p.1 = actions.length - 1 then
          (stateProbs state).length - p.1 * ((stateProbs state).length / actions.length)
        else (stateProbs state).length / actions.length)).sum))

/-- _calculate_action_probabilities (quantum_processor.py lines 150-170),
including the ZeroDivisionError raised by len(probs) // len(actions) on an
empty action mapping, and the final normalisation guarded by total > 0. -/
noncomputable def calculateActionProbabilities (state : List ℂ)
    (actions : List (String × ℝ)) : Except String (List (String × ℝ)) :=
  if actions.length = 0 then
    .error "ZeroDivisionError: integer division or modulo by zero"
  else
    let scores := rawActionScores state actions
    let total := (scores.map Prod.snd).sum
    .ok (if 0 < total then scores.map (fun p => (p.1, p.2 / total)) else scores)

/-! ### Operator embedding (quantum_processor.py lines 100-125) -/

/-- np.kron on the row-list representation of matrices. -/
def kron (A B : List (List ℂ)) : List (List ℂ) :=
  A.flatMap (fun ra => B.map (fun rb => ra.flatMap (fun x => rb.map (fun y => x * y))))

/-- np.eye n. -/
def eye (n : ℕ) : List (List ℂ) :=
  (List.range n).map (fun i => (List.range n).map (fun j => if i = j then (1:ℂ) else 0))

/-- operator[idx:idx+1, idx:idx+1] (quantum_processor.py line 118): the 1-by-1
numpy slice (empty when idx is out of range, like the numpy slice). -/
def sliceBlock (m : List (List ℂ)) (idx : ℕ) : List (List ℂ) :=
  ((m.drop idx).take 1).map (fun r => (r.drop idx).take 1)

/-- Ascending insertion of a number into a sorted list. -/
def insertAsc (x : ℕ) : List ℕ → List ℕ
  | [] => [x]
  | y :: ys => if x ≤ y then x :: y :: ys else y :: insertAsc x ys

/-- Python sorted() on a list of qubit indices. -/
def sortAsc (l : List ℕ) : List ℕ := l.foldr insertAsc []

/-- _extend_to_system (quantum_processor.py lines 100-125): identity on an
empty target list; otherwise fold over system qubit positions in ascending
order, Kronecker-multiplying the 1-by-1 slice of the operator at the target's
index for touched positions and the 2-by-2 identity for untouched ones. -/
def extendToSystem (numQubits : ℕ) (operator : List (List ℂ)) (targetQubits : List ℕ) :
    List (List ℂ) :=
  if targetQubits = [] then eye (2 ^ numQubits)
  else (List.range numQubits).foldl
    (fun result sysQubit =>
      if sysQubit ∈ sortAsc targetQubits then
        kron result (sliceBlock operator ((sortAsc targetQubits).indexOf sysQubit))
      else kron result (eye 2)) (eye 1)

/-! ### General lemmas about norms of state vectors -/

lemma sum_map_div (l : List ℂ) (f : ℂ → ℝ) (c : ℝ) :
    (l.map (fun z => f z / c)).sum = (l.map f).sum / c := by
  induction l with
  | nil => simp
  | cons x xs ih => simp [ih, add_div]

lemma normSq_nonneg (v : List ℂ) : 0 ≤ normSq v := by
  apply List.sum_nonneg
  intro x hx
  obtain ⟨z, _, rfl⟩ := List.mem_map.mp hx
  positivity

lemma normSq_map_div_sqrt (v : List ℂ) (c : ℝ) (hc : 0 ≤ c) :
    normSq (v.map (fun z => z / ((Real.sqrt c : ℝ) : ℂ))) = normSq v / c := by
  have he : ((fun z => Complex.abs z ^ 2) ∘ fun z => z / ((Real.sqrt c : ℝ) : ℂ)) =
      fun z => Complex.abs z ^ 2 / c := by
    funext z
    simp only [Function.comp_apply, map_div₀, Complex.abs_ofReal]
    rw [abs_of_nonneg (Real.sqrt_nonneg _), div_pow, Real.sq_sqrt hc]
  unfold normSq
  rw [List.map_map, he, sum_map_div]

lemma normSq_normalize (v : List ℂ) (h : normSq v ≠ 0) : normSq (normalize v) = 1 := by
  unfold normalize
  rw [normSq_map_div_sqrt v (normSq v) (normSq_nonneg v), div_self h]

lemma initializeState_eq (n : ℕ) :
    initializeState n = 1 :: List.replicate (2 ^ n - 1) (0 : ℂ) := by
  unfold initializeState
  obtain ⟨m, hm⟩ : ∃ m, 2 ^ n = m + 1 :=
    ⟨2 ^ n - 1, (Nat.succ_pred_eq_of_pos (Nat.two_pow_pos n)).symm⟩
  rw [hm, List.replicate_succ]
  simp

/-- C10: a freshly constructed QuantumProcessor with num_qubits = n holds a
state vector of dimension 2^n with amplitude 1 at index 0 and 0 elsewhere,
of unit norm. -/
theorem groundState_correct (n : ℕ) :
    (initializeState n).length = 2 ^ n ∧
    (initializeState n)[0]? = some 1 ∧
    (∀ i : ℕ, 0 < i → i < 2 ^ n → (initializeState n)[i]? = some 0) ∧
    normSq (initializeState n) = 1 := by
  have hpos := Nat.two_pow_pos n
  refine ⟨?_, ?_, ?_, ?_⟩
  · rw [initializeState_eq]
    simp only [List.length_cons, List.length_replicate]
    omega
  · rw [initializeState_eq]
    simp
  · intro i h0 hn
    rw [initializeState_eq]
    cases i with
    | zero => omega
    | succ j =>
      rw [List.getElem?_cons_succ, List.getElem?_replicate, if_pos (by omega)]
  · rw [initializeState_eq]
    unfold normSq
    simp [List.map_replicate, List.sum_replicate]

/-- Witness for C10 at num_qubits = 1, index 1. -/
theorem groundState_correct_witness :
    0 < 1 ∧ 1 < 2 ^ 1 ∧ (initializeState 1)[1]? = some 0 :=
  ⟨by norm_num, by norm_num, (groundState_correct 1).2.2.1 1 (by norm_num) (by norm_num)⟩

/-- C8: to_quantum_state with uncertainty = 0 raises (int() applied to the
infinite -log2(0)), and the measurement path with an empty action mapping
raises (integer division by zero); both errors surface directly to the
caller. -/
theorem degenerate_inputs_error :
    (∀ f : LogicForce, f.uncertainty = 0 →
      toQuantumState true f =
        .error "OverflowError: cannot convert float infinity to integer") ∧
    ∀ state : List ℂ, calculateActionProbabilities state [] =
      .error "ZeroDivisionError: integer division or modulo by zero" := by
  constructor
  · intro f hf
    unfold toQuantumState
    rw [if_neg (by simp), if_pos hf]
  · intro state
    unfold calculateActionProbabilities
    simp

/-- Witness for C8 at the zero-uncertainty force and the empty mapping. -/
theorem degenerate_inputs_error_witness :
    (⟨1, 1, 0, 0⟩ : LogicForce).uncertainty = 0 ∧
    toQuantumState true ⟨1, 1, 0, 0⟩ =
      .error "OverflowError: cannot convert float infinity to integer" ∧
    calculateActionProbabilities [1, 0] [] =
      .error "ZeroDivisionError: integer division or modulo by zero" :=
  ⟨rfl, degenerate_inputs_error.1 _ rfl, degenerate_inputs_error.2 _⟩

/-! ### Claims C6 and C9: force calculation -/

lemma findPatternMatches_eq_nil (rules : List (String × LogicRule))
    (words : List (List Char))
    (h : ∀ w ∈ words, ∀ r ∈ rules, ∀ p ∈ r.2.patterns, patternMatches p w = false) :
    findPatternMatches rules words = [] := by
  unfold findPatternMatches
  rw [List.filter_eq_nil_iff]
  intro m hmem
  obtain ⟨r, hr, rfl⟩ := List.mem_map.mp hmem
  have hfil : r.2.patterns.filter (fun p => words.any (fun w => patternMatches p w)) = [] := by
    rw [List.filter_eq_nil_iff]
    intro p hp
    simp only [Bool.not_eq_true, List.any_eq_false]
    intro w hw
    simp [h w hw r hr p hp]
  simp [hfil]

/-- C6: whenever no token of the input matches any pattern of any rule — in
particular for empty input — calculate_force returns the canonical zero-force
LogicForce (magnitude 0, coherence 1, direction 0, uncertainty 1). -/
theorem noMatch_canonical_force (rules : List (String × LogicRule)) (text : String)
    (ctx : Option String)
    (h : ∀ w ∈ tokenize text, ∀ r ∈ rules, ∀ p ∈ r.2.patterns, patternMatches p w = false) :
    calculateForce rules text ctx = ⟨0, 1, 0, 1⟩ := by
  unfold calculateForce
  simp [findPatternMatches_eq_nil rules (tokenize text) h]

/-- Witness for C6: the example rule set against unmatched text. -/
theorem noMatch_canonical_force_witness :
    (∀ w ∈ tokenize "random text",
      ∀ r ∈ [("greeting", (⟨["hello", "hi"], 1, none⟩ : LogicRule)),
             ("command", (⟨["create", "update"], 1, none⟩ : LogicRule))],
      ∀ p ∈ r.2.patterns, patternMatches p w = false) ∧
    calculateForce
      [("greeting", ⟨["hello", "hi"], 1, none⟩),
       ("command", ⟨["create", "update"], 1, none⟩)] "random text" none = ⟨0, 1, 0, 1⟩ :=
  ⟨by decide, noMatch_canonical_force _ _ _ (by decide)⟩

lemma matchingPairCount_eq_zero (rules : List (String × List String))
    (words : List (List Char))
    (h : ∀ w ∈ words, ∀ r ∈ rules, ∀ p ∈ r.2, patternMatches p w = false) :
    matchingPairCount rules words = 0 := by
  unfold matchingPairCount
  apply List.sum_eq_zero
  intro x hx
  obtain ⟨w, hw, rfl⟩ := List.mem_map.mp hx
  rw [List.length_eq_zero, List.filter_eq_nil_iff]
  intro r hr
  simp only [Bool.not_eq_true, List.any_eq_false]
  intro p hp
  simp [h w hw r hr p hp]

/-- C9: the scalar calculation mode returns
min(1, number of matching (token, category) pairs / number of categories),
0 when nothing matches, 0 on empty input, and 1/2 on the example rule set with
input "hello world". -/
theorem scalarMode_correct :
    (∀ (rules : List (String × List String)) (text : String),
      (∀ w ∈ tokenize text, ∀ r ∈ rules, ∀ p ∈ r.2, patternMatches p w = false) →
        scalarCalculateForce rules text = 0) ∧
    (∀ rules : List (String × List String), scalarCalculateForce rules "" = 0) ∧
    scalarCalculateForce
      [("greeting", ["hello", "hi"]), ("command", ["create", "update"])]
      "hello world" = 1 / 2 := by
  refine ⟨?_, ?_, ?_⟩
  · intro rules text h
    unfold scalarCalculateForce
    rw [matchingPairCount_eq_zero rules _ h, Nat.cast_zero, zero_div]
    exact min_eq_right (by norm_num)
  · intro rules
    unfold scalarCalculateForce
    rw [show tokenize "" = [] from rfl]
    rw [show matchingPairCount rules [] = 0 from rfl, Nat.cast_zero, zero_div]
    exact min_eq_right (by norm_num)
  · unfold scalarCalculateForce
    rw [show matchingPairCount
        [("greeting", ["hello", "hi"]), ("command", ["create", "update"])]
        (tokenize "hello world") = 1 by decide]
    norm_num

/-- Witness for C9 on the no-match branch at concrete rules and text. -/
theorem scalarMode_correct_witness :
    (∀ w ∈ tokenize "random text",
      ∀ r ∈ [("greeting", ["hello", "hi"]), ("command", ["create", "update"])],
      ∀ p ∈ r.2, patternMatches p w = false) ∧
    scalarCalculateForce
      [("greeting", ["hello", "hi"]), ("command", ["create", "update"])] "random text" = 0 :=
  ⟨by decide, scalarMode_correct.1 _ _ (by decide)⟩

/-! ### Claims C1, C2, C5, C7: state encoding and force application -/

lemma length_normalize (v : List ℂ) : (normalize v).length = v.length := by
  simp [normalize]

lemma length_toQuantumStateVec (f : LogicForce) :
    (toQuantumStateVec f).length = 2 ^ magnitudeQubits f.uncertainty := by
  simp [toQuantumStateVec, rawStateVec, length_normalize]

lemma toQuantumState_ok (f : LogicForce) (hu : 0 < f.uncertainty) :
    toQuantumState true f = .ok (toQuantumStateVec f) := by
  unfold toQuantumState
  rw [if_neg (by simp), if_neg hu.ne', if_neg (not_lt.mpr hu.le)]

lemma normSq_rawStateVec (f : LogicForce) (hmc : 0 ≤ f.magnitude * f.coherence) :
    normSq (rawStateVec f) =
      ((2 ^ magnitudeQubits f.uncertainty : ℕ) : ℝ) * (f.magnitude * f.coherence) := by
  unfold normSq rawStateVec
  rw [List.map_map]
  have he : ((fun z => Complex.abs z ^ 2) ∘ fun i : ℕ =>
      ((Real.sqrt (f.magnitude * f.coherence) : ℝ) : ℂ) *
        Complex.exp (((if 1 < 2 ^ magnitudeQubits f.uncertainty then
          f.direction * (i : ℝ) / ((2 ^ magnitudeQubits f.uncertainty : ℕ) - 1 : ℝ)
        else f.direction) : ℝ) * Complex.I)) =
      fun _ : ℕ => f.magnitude * f.coherence := by
    funext i
    simp only [Function.comp_apply, map_mul, Complex.abs_exp_ofReal_mul_I, mul_one,
      Complex.abs_ofReal]
    rw [abs_of_nonneg (Real.sqrt_nonneg _), Real.sq_sqrt hmc]
  rw [he, List.map_const', List.length_range, List.sum_replicate, nsmul_eq_mul]

lemma normSq_toQuantumStateVec (f : LogicForce) (hmc : 0 < f.magnitude * f.coherence) :
    normSq (toQuantumStateVec f) = 1 := by
  apply normSq_normalize
  rw [normSq_rawStateVec f hmc.le]
  positivity

lemma applyForce_eq (target : List ℂ) (f : LogicForce) (hu : 0 < f.uncertainty) :
    applyForce true target f =
      if (toQuantumStateVec f).length ≠ target.length then
        .error "ValueError: Incompatible quantum states"
      else .ok (normalize (blendVec f target)) := by
  unfold applyForce
  rw [if_neg (by simp), toQuantumState_ok f hu]

/-- C1 (amended): every state to_quantum_state returns is exactly unit norm
when the pre-normalisation norm is nonzero (magnitude x coherence > 0), and the
state apply_force returns is exactly unit norm whenever the blended vector has
nonzero norm; when the vector being normalised has zero norm (for instance
magnitude = 0) the division by the zero norm breaks the invariant. -/
theorem unitNorm_states (f : LogicForce) (target : List ℂ)
    (hu : 0 < f.uncertainty) (hmc : 0 < f.magnitude * f.coherence) :
    toQuantumState true f = .ok (toQuantumStateVec f) ∧
    normSq (toQuantumStateVec f) = 1 ∧
    ∀ s, applyForce true target f = .ok s → normSq (blendVec f target) ≠ 0 →
      normSq s = 1 := by
  refine ⟨toQuantumState_ok f hu, normSq_toQuantumStateVec f hmc, ?_⟩
  intro s hs hb
  rw [applyForce_eq target f hu] at hs
  by_cases hlen : (toQuantumStateVec f).length ≠ target.length
  · rw [if_pos hlen] at hs
    exact absurd hs (by simp)
  · rw [if_neg hlen] at hs
    cases hs
    exact normSq_normalize _ hb

/-- Witness for C1 at a concrete force and target. -/
theorem unitNorm_states_witness :
    0 < ((1:ℝ)/2) ∧ 0 < ((1:ℝ)/2) * 1 ∧
    (toQuantumState true ⟨1/2, 1, 0, 1/2⟩ = .ok (toQuantumStateVec ⟨1/2, 1, 0, 1/2⟩) ∧
     normSq (toQuantumStateVec ⟨1/2, 1, 0, 1/2⟩) = 1 ∧
     ∀ s, applyForce true [0, 0] ⟨1/2, 1, 0, 1/2⟩ = .ok s →
       normSq (blendVec ⟨1/2, 1, 0, 1/2⟩ [0, 0]) ≠ 0 → normSq s = 1) :=
  ⟨by norm_num, by norm_num, unitNorm_states ⟨1/2, 1, 0, 1/2⟩ [0, 0] (by norm_num) (by norm_num)⟩

lemma normalize_replicate_zero (n : ℕ) :
    normalize (List.replicate n (0:ℂ)) = List.replicate n 0 := by
  unfold normalize
  rw [List.map_replicate, zero_div]

lemma normSq_replicate_zero (n : ℕ) : normSq (List.replicate n (0:ℂ)) = 0 := by
  unfold normSq
  rw [List.map_replicate]
  simp

lemma rawStateVec_zero (f : LogicForce) (hm : f.magnitude = 0) :
    rawStateVec f = List.replicate (2 ^ magnitudeQubits f.uncertainty) 0 := by
  rw [List.eq_replicate_iff]
  constructor
  · simp [rawStateVec]
  · intro b hb
    unfold rawStateVec at hb
    obtain ⟨i, _, rfl⟩ := List.mem_map.mp hb
    rw [hm, zero_mul, Real.sqrt_zero]
    simp

lemma toQuantumStateVec_zero (f : LogicForce) (hm : f.magnitude = 0) :
    toQuantumStateVec f = List.replicate (2 ^ magnitudeQubits f.uncertainty) 0 := by
  unfold toQuantumStateVec
  rw [rawStateVec_zero f hm, normalize_replicate_zero]

/-- C1 counterexample: to_quantum_state on the valid force
(magnitude 0, coherence 1, direction 0, uncertainty 1/2) returns a state whose
sum of squared magnitudes is 0 (numpy: NaN from dividing the zero vector by
its zero norm), not 1 within 1e-9. -/
theorem unitNorm_states_cex :
    toQuantumState true ⟨0, 1, 0, 1/2⟩ = .ok (toQuantumStateVec ⟨0, 1, 0, 1/2⟩) ∧
    normSq (toQuantumStateVec ⟨0, 1, 0, 1/2⟩) = 0 ∧
    ¬ |normSq (toQuantumStateVec ⟨0, 1, 0, 1/2⟩) - 1| ≤ 1 / 1000000000 := by
  have h1 : normSq (toQuantumStateVec ⟨0, 1, 0, 1/2⟩) = 0 := by
    rw [toQuantumStateVec_zero _ rfl, normSq_replicate_zero]
  exact ⟨toQuantumState_ok _ (by norm_num), h1, by rw [h1]; norm_num⟩

/-- C5 (code bug): at magnitude = 0 every amplitude of the encoded state is 0
(all equal, as the claim says), but the state is the zero vector — numpy
divides it by its zero norm, producing NaN, so no unit-norm pure-uncertainty
state is returned. -/
theorem zeroMagnitude_state_not_unit :
    toQuantumState true ⟨0, 1, 0, 1/4⟩ = .ok (toQuantumStateVec ⟨0, 1, 0, 1/4⟩) ∧
    toQuantumStateVec ⟨0, 1, 0, 1/4⟩ =
      List.replicate (2 ^ magnitudeQubits ((1:ℝ)/4)) 0 ∧
    normSq (toQuantumStateVec ⟨0, 1, 0, 1/4⟩) = 0 ∧ (0:ℝ) ≠ 1 := by
  have h1 := toQuantumStateVec_zero (⟨0, 1, 0, 1/4⟩ : LogicForce) rfl
  exact ⟨toQuantumState_ok _ (by norm_num), h1,
    by rw [h1, normSq_replicate_zero], by norm_num⟩

/-- C2 (amended): for positive uncertainty, to_quantum_state chooses the qubit
count max(1, trunc(-log2(uncertainty))) — Python int() truncation, i.e. the
floor for the nonnegative values arising from uncertainty at most 1 — and
returns a state vector of dimension 2 to that count (the claim's ceil is what
the code does not compute). -/
theorem qubitCount_trunc (f : LogicForce) (hu : 0 < f.uncertainty) :
    toQuantumState true f = .ok (toQuantumStateVec f) ∧
    (toQuantumStateVec f).length = 2 ^ max 1 (⌊-Real.logb 2 f.uncertainty⌋).toNat :=
  ⟨toQuantumState_ok f hu, by rw [length_toQuantumStateVec]; rfl⟩

/-- Witness for C2 at uncertainty 1/2. -/
theorem qubitCount_trunc_witness :
    0 < ((1:ℝ)/2) ∧
    (toQuantumState true ⟨1, 1, 0, 1/2⟩ = .ok (toQuantumStateVec ⟨1, 1, 0, 1/2⟩) ∧
     (toQuantumStateVec ⟨1, 1, 0, 1/2⟩).length =
       2 ^ max 1 (⌊-Real.logb 2 ((1:ℝ)/2)⌋).toNat) :=
  ⟨by norm_num, qubitCount_trunc ⟨1, 1, 0, 1/2⟩ (by norm_num)⟩

lemma neg_logb_third : -Real.logb 2 ((1:ℝ)/3) = Real.logb 2 ((3:ℕ):ℝ) := by
  rw [one_div, Real.logb_inv, neg_neg]
  norm_num

lemma floor_neg_logb_third : (⌊-Real.logb 2 ((1:ℝ)/3)⌋).toNat = 1 := by
  rw [neg_logb_third, show (2:ℝ) = ((2:ℕ):ℝ) by norm_num,
    Real.floor_logb_natCast (by positivity), Int.log_natCast,
    show Nat.log 2 3 = 1 from Nat.log_eq_of_pow_le_of_lt_pow (by norm_num) (by norm_num)]
  rfl

lemma ceil_neg_logb_third : (⌈-Real.logb 2 ((1:ℝ)/3)⌉).toNat = 2 := by
  rw [neg_logb_third, show (2:ℝ) = ((2:ℕ):ℝ) by norm_num,
    Real.ceil_logb_natCast (by positivity), Int.clog_natCast,
    show Nat.clog 2 3 = 2 from le_antisymm
      ((Nat.le_pow_iff_clog_le (by norm_num)).mp (by norm_num))
      ((Nat.pow_lt_iff_lt_clog (by norm_num)).mp (by norm_num))]
  rfl

/-- C2 counterexample: at uncertainty 1/3 the code returns a dimension-2 state
(trunc gives qubit count 1), while the claim's ceil formula demands
dimension 4. -/
theorem qubitCount_ceil_cex :
    (toQuantumStateVec ⟨1, 1, 0, 1/3⟩).length = 2 ∧
    (2:ℕ) ^ max 1 (⌈-Real.logb 2 ((1:ℝ)/3)⌉).toNat = 4 ∧ (2:ℕ) ≠ 4 := by
  refine ⟨?_, ?_, by norm_num⟩
  · rw [length_toQuantumStateVec]
    show 2 ^ magnitudeQubits ((1:ℝ)/3) = 2
    unfold magnitudeQubits
    rw [floor_neg_logb_third]
    norm_num
  · rw [ceil_neg_logb_third]
    norm_num

/-- C7: apply_force returns the renormalised blend
magnitude * force_state + (1 - magnitude) * target when the encoded force
state and the target have equal dimension, and fails with the
dimension-mismatch error when they differ. -/
theorem applyForce_blend_or_error (target : List ℂ) (f : LogicForce)
    (hu : 0 < f.uncertainty) :
    ((toQuantumStateVec f).length = target.length →
      applyForce true target f = .ok (normalize (blendVec f target))) ∧
    ((toQuantumStateVec f).length ≠ target.length →
      applyForce true target f = .error "ValueError: Incompatible quantum states") := by
  constructor
  · intro hlen
    rw [applyForce_eq target f hu, if_neg (by simp [hlen])]
  · intro hlen
    rw [applyForce_eq target f hu, if_pos hlen]

/-- Witness for C7 at uncertainty 1/2. -/
theorem applyForce_blend_or_error_witness :
    0 < ((1:ℝ)/2) ∧
    (((toQuantumStateVec ⟨1/2, 1, 0, 1/2⟩).length = ([1, 0] : List ℂ).length →
       applyForce true [1, 0] ⟨1/2, 1, 0, 1/2⟩ =
         .ok (normalize (blendVec ⟨1/2, 1, 0, 1/2⟩ [1, 0]))) ∧
     ((toQuantumStateVec ⟨1/2, 1, 0, 1/2⟩).length ≠ ([1, 0] : List ℂ).length →
       applyForce true [1, 0] ⟨1/2, 1, 0, 1/2⟩ =
         .error "ValueError: Incompatible quantum states")) :=
  ⟨by norm_num, applyForce_blend_or_error [1, 0] ⟨1/2, 1, 0, 1/2⟩ (by norm_num)⟩

/-! ### Claim C3: measurement chunk partitioning -/

lemma take_sum_eq (l : List ℝ) (b : ℕ) :
    (l.take b).sum = ∑ j in Finset.range b, l.getD j 0 := by
  induction b generalizing l with
  | zero => simp
  | succ b ih =>
    cases l with
    | nil => simp
    | cons x xs =>
      rw [List.take_succ_cons, List.sum_cons, ih, Finset.sum_range_succ']
      simp [add_comm]

lemma drop_getD (l : List ℝ) (a j : ℕ) : (l.drop a).getD j 0 = l.getD (a + j) 0 := by
  induction a generalizing l with
  | zero => simp
  | succ a ih =>
    cases l with
    | nil => simp
    | cons x xs =>
      rw [List.drop_succ_cons, ih, show a + 1 + j = (a + j) + 1 by omega]
      rfl

lemma slice_sum (l : List ℝ) (a b : ℕ) :
    ((l.drop a).take b).sum = ∑ j in Finset.Ico a (a + b), l.getD j 0 := by
  rw [take_sum_eq, Finset.sum_Ico_eq_sum_range]
  simp only [Nat.add_sub_cancel_left]
  exact Finset.sum_congr rfl (fun j _ => drop_getD l a j)

/-- C3 (amended): the i-th raw score of _calculate_action_probabilities is the
i-th category's weight times the summed probability over the chunk
[i*(dim/n), (i+1)*(dim/n)); chunks are taken in insertion order and all have
size dim/n (integer division) — the trailing remainder indices belong to no
chunk, including the last one. -/
theorem rawScore_chunks (state : List ℂ) (actions : List (String × ℝ)) (i : ℕ)
    (h : i < actions.length) :
    (rawActionScores state actions)[i]? =
      some ((actions.getD i ("", 0)).1,
        (actions.getD i ("", 0)).2 *
          ∑ j in Finset.Ico (i * (state.length / actions.length))
            ((i + 1) * (state.length / actions.length)),
            (stateProbs state).getD j 0) := by
  unfold rawActionScores
  rw [List.getElem?_map, List.getElem?_enum, List.getElem?_eq_getElem h]
  simp only [Option.map_some']
  have hlen : (stateProbs state).length = state.length := by
    simp [stateProbs]
  rw [hlen, slice_sum, List.getD_eq_getElem _ _ h, Nat.succ_mul]

/-- Witness for C3 at a concrete state and action mapping. -/
theorem rawScore_chunks_witness :
    1 < ([("x", (1:ℝ)), ("y", 1)]).length ∧
    (rawActionScores [1, 0, 0, 0] [("x", 1), ("y", 1)])[1]? =
      some ((([("x", (1:ℝ)), ("y", 1)]).getD 1 ("", 0)).1,
        (([("x", (1:ℝ)), ("y", 1)]).getD 1 ("", 0)).2 *
          ∑ j in Finset.Ico
            (1 * (([1, 0, 0, 0] : List ℂ).length / ([("x", (1:ℝ)), ("y", 1)]).length))
            ((1 + 1) * (([1, 0, 0, 0] : List ℂ).length / ([("x", (1:ℝ)), ("y", 1)]).length)),
            (stateProbs [1, 0, 0, 0]).getD j 0) :=
  ⟨by norm_num, rawScore_chunks [1, 0, 0, 0] [("x", 1), ("y", 1)] 1 (by norm_num)⟩

/-- C3 counterexample: on the 4-dimensional state with all probability at
index 3 and three equally weighted categories, the code's raw scores are all 0
(chunk size 4/3 = 1, index 3 in no chunk), while the claim's
last-chunk-absorbs-remainder partition gives the third category score 1. -/
theorem chunk_remainder_cex :
    rawActionScores [0, 0, 0, 1] [("a", 1), ("b", 1), ("c", 1)] ≠
      claimChunkScores [0, 0, 0, 1] [("a", 1), ("b", 1), ("c", 1)] := by
  intro h
  unfold rawActionScores claimChunkScores stateProbs at h
  simp only [List.enum, List.enumFrom, List.map_cons, List.map_nil, List.length_cons,
    List.length_nil] at h
  norm_num [List.drop, List.take] at h

/-! ### Claim C4: operator extension to the full register -/

lemma length_kron (A B : List (List ℂ)) : (kron A B).length = A.length * B.length := by
  unfold kron
  rw [List.length_flatMap]
  have hc : (List.length ∘ fun ra : List ℂ =>
      List.map (fun rb => ra.flatMap fun x => List.map (fun y => x * y) rb) B) =
      fun _ => B.length := by
    funext ra
    simp
  rw [hc, List.map_const', List.sum_replicate, smul_eq_mul]

/-- C4 (code bug): extending a 2-by-2 operator to a 2-qubit register at target
qubit 0 yields a 2-row matrix, not the 2^2-row full-register operator the
claim (and the caller _apply_partial_operator, which multiplies it against the
4-by-4 density matrix) requires: the code Kronecker-multiplies the 1-by-1
numpy slice operator[idx:idx+1, idx:idx+1] instead of a 2-by-2 block. -/
theorem extendToSystem_wrong_dim :
    (extendToSystem 2 (eye 2) [0]).length = 2 ∧ (2:ℕ) ≠ 2 ^ 2 := by
  constructor
  · unfold extendToSystem
    rw [if_neg (by simp), show List.range 2 = [0, 1] from rfl,
      show sortAsc [0] = [0] from rfl, List.foldl_cons, List.foldl_cons, List.foldl_nil]
    rw [if_neg (show (1:ℕ) ∉ ([0] : List ℕ) by simp),
      if_pos (show (0:ℕ) ∈ ([0] : List ℕ) by simp),
      show (([0] : List ℕ).indexOf 0) = 0 from rfl]
    rw [length_kron, length_kron]
    simp [eye, sliceBlock]
  · norm_num

end LFT
